import Mathlib

/-!
Verification of the authentication request-handling flow of the Arcane-Scribe
backend (routers auth.py and login.py of the as-api-backend service).

The routers in the source call a Cognito identity-provider adapter
(CognitoIdpClient) through dependency injection.  The embedding mirrors that
structure: each handler body is a pure function of the request data and of the
outcome of the adapter call it performs.  Adapter calls either return a value
or raise an exception; this is embedded as an Except value handed to the
handler, and the handler either returns a JSONResponse, raises an HTTPException
(translated by the framework into an error response), or lets the exception
propagate uncaught.
-/

namespace ArcaneScribe

/-- An exception raised by an Identity Client Adapter call, classified the way
the routers dispatch on it: the Cognito client exceptions
UsernameExistsException and UserNotFoundException, any other botocore
ClientError, and any exception that is not a ClientError at all.  Each carries
its message, the str(e) the handlers interpolate into response details. -/
inductive AdapterException where
  | usernameExists (msg : String)
  | userNotFound (msg : String)
  | clientError (msg : String)
  | other (msg : String)
deriving DecidableEq, Repr

/-- UsernameExistsException and UserNotFoundException are Cognito service
errors, subclasses of botocore ClientError; only the last constructor models an
exception outside the ClientError hierarchy. -/
def AdapterException.isClientError : AdapterException → Bool
  | .usernameExists _ => true
  | .userNotFound _ => true
  | .clientError _ => true
  | .other _ => false

/-- The str(e) rendering of the exception, as interpolated by the handlers. -/
def AdapterException.message : AdapterException → String
  | .usernameExists m => m
  | .userNotFound m => m
  | .clientError m => m
  | .other m => m

/-- True exactly on UsernameExistsException, the provider's duplicate-user
report. -/
def AdapterException.isUsernameExists : AdapterException → Bool
  | .usernameExists _ => true
  | _ => false

/-- True exactly on UserNotFoundException. -/
def AdapterException.isUserNotFound : AdapterException → Bool
  | .userNotFound _ => true
  | _ => false

/-- The token bundle inside a successful Cognito authentication response
(the AuthenticationResult field): access, id and refresh tokens plus expiry. -/
structure TokenBundle where
  accessToken : String
  idToken : String
  refreshToken : String
  expiresIn : Nat
deriving DecidableEq, Repr

/-- The raw response dictionary returned by the adapter authentication calls
(admin_initiate_auth, admin_respond_to_auth_challenge), with the three keys the
routers read via response.get: ChallengeName, Session and
AuthenticationResult.  Each key may be absent. -/
structure CognitoAuthResponse where
  challengeName : Option String
  session : Option String
  authenticationResult : Option TokenBundle
deriving DecidableEq, Repr

/-- A minimal JSON value model, used to state what a response body serializes
to on the wire. -/
inductive Json where
  | null
  | str (s : String)
  | num (n : Nat)
  | obj (fields : List (String × Json))

/-- JSON encoding of a token bundle, with the Cognito field names. -/
def TokenBundle.toJson (t : TokenBundle) : Json :=
  .obj [("AccessToken", .str t.accessToken), ("IdToken", .str t.idToken),
        ("RefreshToken", .str t.refreshToken), ("ExpiresIn", .num t.expiresIn)]

/-- JSON encoding of a raw authentication response; absent keys are omitted,
as boto3 omits keys the service did not return. -/
def CognitoAuthResponse.toJson (r : CognitoAuthResponse) : Json :=
  .obj ((match r.challengeName with
         | some c => [("ChallengeName", Json.str c)]
         | none => []) ++
        (match r.session with
         | some s => [("Session", Json.str s)]
         | none => []) ++
        (match r.authenticationResult with
         | some t => [("AuthenticationResult", t.toJson)]
         | none => []))

/-- What a handler invocation produces once its adapter call outcome is fixed:
a JSONResponse with a status code and body, an HTTPException raised at the
boundary (status code and detail string), or an exception left uncaught. -/
inductive HandlerOutcome (β : Type) where
  | response (status : Nat) (body : β)
  | httpError (status : Nat) (detail : String)
  | uncaught (e : AdapterException)
deriving DecidableEq, Repr

/-- The HTTP status the framework sends for the outcome; none when the
exception escapes the handler uncaught. -/
def HandlerOutcome.toStatus {β : Type} : HandlerOutcome β → Option Nat
  | .response s _ => some s
  | .httpError s _ => some s
  | .uncaught _ => none

/-- The body of a 200 response from the /auth/login handler: either the
challenge dictionary built in the NEW_PASSWORD_REQUIRED branch, or the
AuthenticationResult field of the provider response (null when absent). -/
inductive LoginBody where
  | challenge (challengeName : String) (session : Option String) (username : String)
  | bundle (result : Option TokenBundle)
deriving DecidableEq, Repr

/-- True exactly on the challenge-shaped body. -/
def LoginBody.isChallenge : LoginBody → Bool
  | .challenge _ _ _ => true
  | .bundle _ => false

/-- True when the body is a challenge carrying a non-empty session token. -/
def LoginBody.hasNonemptySession : LoginBody → Bool
  | .challenge _ (some s) _ => decide (s ≠ "")
  | .challenge _ none _ => false
  | .bundle _ => false

namespace AuthRouter

/-- Handler login_for_access_token of routers/auth.py, as a function of the
request username and of the outcome of the admin_initiate_auth adapter call.
Inside the try block: if the response ChallengeName equals
NEW_PASSWORD_REQUIRED, a 200 challenge body is returned with the response
Session and the request username; otherwise a 200 response whose content is
the response AuthenticationResult.  The except-Exception clause raises
HTTPException 401 with the caught exception interpolated into the detail. -/
def login_for_access_token (username : String)
    (initiateAuthResult : Except AdapterException CognitoAuthResponse) :
    HandlerOutcome LoginBody :=
  match initiateAuthResult with
  | .ok response =>
      if response.challengeName = some "NEW_PASSWORD_REQUIRED" then
        .response 200 (.challenge "NEW_PASSWORD_REQUIRED" response.session username)
      else
        .response 200 (.bundle response.authenticationResult)
  | .error e =>
      .httpError 401 ("Incorrect username or password: " ++ e.message)

/-- The request body of POST /auth/respond-to-challenge
(RespondToChallengeRequest: username, session, new_password). -/
structure RespondToChallengeRequest where
  username : String
  session : String
  new_password : String
deriving DecidableEq, Repr

/-- The keyword arguments the handler passes to the adapter call
admin_respond_to_auth_challenge (besides the configured pool and client ids). -/
structure ChallengeCallArgs where
  username : String
  session : String
  new_password : String
deriving DecidableEq, Repr

/-- Handler respond_to_challenge of routers/auth.py.  It forwards the request
fields to admin_respond_to_auth_challenge and returns the adapter result as a
200 response; the only except clause catches ClientError and raises
HTTPException 400 with str(e) as detail, so an exception outside the
ClientError hierarchy leaves the handler uncaught.  The first component
records the arguments passed to the adapter call. -/
def respond_to_challenge (req : RespondToChallengeRequest)
    (challengeResult : Except AdapterException CognitoAuthResponse) :
    ChallengeCallArgs × HandlerOutcome CognitoAuthResponse :=
  (⟨req.username, req.session, req.new_password⟩,
   match challengeResult with
   | .ok tokens => .response 200 tokens
   | .error e =>
       if e.isClientError then .httpError 400 e.message
       else .uncaught e)

/-- The request body of POST /auth/signup (SignUpRequest). -/
structure SignUpRequest where
  username : String
  email : String
  temporary_password : String
  user_group : String
deriving DecidableEq, Repr

/-- The user_info dictionary fields that admin_create_user reads from the
adapter result: Username and UserCreateDate. -/
structure UserRecord where
  username : String
  userCreateDate : String
deriving DecidableEq, Repr

/-- The success body built by the signup handler. -/
structure SignupBody where
  message : String
  username : String
  user_create_date : String
deriving DecidableEq, Repr

/-- The except clauses of admin_create_user, which cover the whole try block:
UsernameExistsException maps to HTTPException 409, any other exception to
HTTPException 500 with a fixed generic detail. -/
def signup_dispatch (e : AdapterException) : HandlerOutcome SignupBody :=
  match e with
  | .usernameExists _ =>
      .httpError 409 "A user with this username already exists."
  | _ =>
      .httpError 500 "An unexpected error occurred while creating the user."

/-- Handler admin_create_user of routers/auth.py, as a function of the
request and of the outcomes of its two adapter calls.  The
admin_add_user_to_group call is only reached when admin_create_user
succeeded; an exception raised by either call is dispatched by the shared
except clauses. -/
def admin_create_user (req : SignUpRequest)
    (createResult : Except AdapterException UserRecord)
    (addGroupResult : Except AdapterException Unit) :
    HandlerOutcome SignupBody :=
  match createResult with
  | .error e => signup_dispatch e
  | .ok user_info =>
      match addGroupResult with
      | .error e => signup_dispatch e
      | .ok _ =>
          .response 201
            ⟨"User created successfully.", user_info.username,
             user_info.userCreateDate⟩

/-- Handler admin_delete_user of routers/auth.py: success returns 204 with an
empty body, UserNotFoundException maps to 404, any other exception to a
generic 500. -/
def admin_delete_user
    (deleteResult : Except AdapterException Unit) : HandlerOutcome Unit :=
  match deleteResult with
  | .ok _ => .response 204 ()
  | .error (.userNotFound _) => .httpError 404 "User not found."
  | .error _ =>
      .httpError 500 "An unexpected error occurred while deleting the user."

/-- Handler admin_list_users of routers/auth.py: an empty adapter result is
returned as 200 with an empty list, a non-empty one as 200 with the list,
and any exception maps to a generic 500. -/
def admin_list_users
    (listResult : Except AdapterException (List UserRecord)) :
    HandlerOutcome (List UserRecord) :=
  match listResult with
  | .ok users => if users.isEmpty then .response 200 [] else .response 200 users
  | .error _ =>
      .httpError 500 "An unexpected error occurred while listing users."

end AuthRouter

namespace LoginRouter

/-- Handler login_for_access_token of routers/login.py (the legacy POST /login
route): the raw adapter result of admin_initiate_auth is returned whole as the
200 response content, with no challenge handling; the except-Exception clause
raises HTTPException 401 with the caught exception in the detail. -/
def login_for_access_token
    (initiateAuthResult : Except AdapterException CognitoAuthResponse) :
    HandlerOutcome CognitoAuthResponse :=
  match initiateAuthResult with
  | .ok tokens => .response 200 tokens
  | .error e =>
      .httpError 401 ("Incorrect username or password: " ++ e.message)

end LoginRouter

/-- Modelled from the spec: the managed identity provider's user store, the
external collaborator behind the Identity Client Adapter (core.aws,
CognitoIdpClient, not part of the analyzed sources).  The spec reduces the
state relevant here to which usernames exist in the pool. -/
structure ProviderState where
  users : List String
deriving DecidableEq, Repr

/-- Modelled from the spec: the adapter operation admin_create_user
(CognitoIdpClient, not part of the analyzed sources) fails with the duplicate
user error if the username already exists, and otherwise creates the user at
the provider and returns its record.  The creation timestamp is supplied by
the provider. -/
def provider_admin_create_user (st : ProviderState) (username : String)
    (now : String) :
    Except AdapterException AuthRouter.UserRecord × ProviderState :=
  if username ∈ st.users then
    (.error (.usernameExists "UsernameExistsException"), st)
  else
    (.ok ⟨username, now⟩, ⟨username :: st.users⟩)

/-- The signup handler run against the spec-modelled provider: the
admin_create_user adapter call is interpreted by provider_admin_create_user,
while the outcome of the subsequent admin_add_user_to_group call (whose
failure modes the spec leaves to the external collaborator) stays a
parameter.  Returns the handler outcome together with the provider state
after the invocation. -/
def signup_flow (req : AuthRouter.SignUpRequest) (st : ProviderState)
    (now : String) (addGroupResult : Except AdapterException Unit) :
    HandlerOutcome AuthRouter.SignupBody × ProviderState :=
  match provider_admin_create_user st req.username now with
  | (createResult, st2) =>
      (AuthRouter.admin_create_user req createResult addGroupResult, st2)

/-- Modelled from the spec: the result of the Authorization Gate
require_admin_user (api_backend.dependencies, not part of the analyzed
sources): it resolves the bearer credential to an admin identity, or fails
with Unauthorized, mapped to HTTP 401 or 403. -/
inductive GateResult where
  | admin (username : String)
  | unauthorized (forbidden : Bool)
deriving DecidableEq, Repr

/-- The HTTP status of a gate failure: 403 when the resolved identity lacks
the admins group, 401 when the credential is missing or invalid. -/
def GateResult.failStatus (forbidden : Bool) : Nat :=
  if forbidden then 403 else 401

/-- Modelled from the spec: FastAPI resolves the require_admin_user dependency
to completion before the handler body of POST /auth/signup runs; on gate
failure the gate's error response is returned and the body never executes, so
no adapter call is made.  The second component counts the Identity Client
Adapter calls performed: on success the body makes the admin_create_user call
and, only if it succeeds, the admin_add_user_to_group call. -/
def guarded_signup (gate : GateResult) (req : AuthRouter.SignUpRequest)
    (createResult : Except AdapterException AuthRouter.UserRecord)
    (addGroupResult : Except AdapterException Unit) :
    HandlerOutcome AuthRouter.SignupBody × Nat :=
  match gate with
  | .unauthorized forbidden =>
      (.httpError (GateResult.failStatus forbidden) "Not authorized", 0)
  | .admin _ =>
      (AuthRouter.admin_create_user req createResult addGroupResult,
       match createResult with
       | .error _ => 1
       | .ok _ => 2)

/-- Modelled from the spec: the gate-guarded DELETE /auth/delete-user
endpoint; the handler body performs exactly one adapter call
(admin_delete_user) and runs only when the gate succeeded. -/
def guarded_delete_user (gate : GateResult)
    (deleteResult : Except AdapterException Unit) :
    HandlerOutcome Unit × Nat :=
  match gate with
  | .unauthorized forbidden =>
      (.httpError (GateResult.failStatus forbidden) "Not authorized", 0)
  | .admin _ => (AuthRouter.admin_delete_user deleteResult, 1)

/-- Modelled from the spec: the gate-guarded GET /auth/users endpoint; the
handler body performs exactly one adapter call (admin_list_users) and runs
only when the gate succeeded. -/
def guarded_list_users (gate : GateResult)
    (listResult : Except AdapterException (List AuthRouter.UserRecord)) :
    HandlerOutcome (List AuthRouter.UserRecord) × Nat :=
  match gate with
  | .unauthorized forbidden =>
      (.httpError (GateResult.failStatus forbidden) "Not authorized", 0)
  | .admin _ => (AuthRouter.admin_list_users listResult, 1)

/-- C1: for each admin-only operation (signup, delete-user, list-users), when
the Authorization Gate require_admin_user fails to resolve a valid admin
identity, the endpoint returns the gate's authorization failure status (401
or 403) and performs zero Identity Client Adapter calls, so no mutating side
effect occurs. -/
theorem admin_gate_failure_blocks_adapter_calls
    (forbidden : Bool) (req : AuthRouter.SignUpRequest)
    (createResult : Except AdapterException AuthRouter.UserRecord)
    (addGroupResult : Except AdapterException Unit)
    (deleteResult : Except AdapterException Unit)
    (listResult : Except AdapterException (List AuthRouter.UserRecord)) :
    ((guarded_signup (.unauthorized forbidden) req createResult
        addGroupResult).1.toStatus = some (GateResult.failStatus forbidden)
      ∧ (guarded_signup (.unauthorized forbidden) req createResult
          addGroupResult).2 = 0)
    ∧ ((guarded_delete_user (.unauthorized forbidden) deleteResult).1.toStatus
        = some (GateResult.failStatus forbidden)
      ∧ (guarded_delete_user (.unauthorized forbidden) deleteResult).2 = 0)
    ∧ ((guarded_list_users (.unauthorized forbidden) listResult).1.toStatus
        = some (GateResult.failStatus forbidden)
      ∧ (guarded_list_users (.unauthorized forbidden) listResult).2 = 0)
    ∧ (GateResult.failStatus forbidden = 401
        ∨ GateResult.failStatus forbidden = 403) := by
  refine ⟨⟨rfl, rfl⟩, ⟨rfl, rfl⟩, ⟨rfl, rfl⟩, ?_⟩
  cases forbidden
  · exact Or.inl rfl
  · exact Or.inr rfl

/-- C7: the respond-to-challenge handler forwards the session token and
username (and new password) from the request body to the adapter's
respond_to_challenge call unmodified, for every request and every adapter
outcome: the arguments of the call are exactly the request's fields,
whatever the session token's content. -/
theorem respond_to_challenge_forwards_request
    (req : AuthRouter.RespondToChallengeRequest)
    (challengeResult : Except AdapterException CognitoAuthResponse) :
    (AuthRouter.respond_to_challenge req challengeResult).1
      = ⟨req.username, req.session, req.new_password⟩ := rfl

/-- C3 counterexample: a provider response flagged NEW_PASSWORD_REQUIRED but
carrying no Session yields a 200 challenge body whose session token is not a
non-empty string — the handler forwards response.get("Session") without
guaranteeing non-emptiness. -/
theorem login_challenge_empty_session_counterexample :
    AuthRouter.login_for_access_token "alice"
        (.ok ⟨some "NEW_PASSWORD_REQUIRED", none, none⟩)
      = .response 200 (.challenge "NEW_PASSWORD_REQUIRED" none "alice")
    ∧ (LoginBody.challenge "NEW_PASSWORD_REQUIRED" none
        "alice").hasNonemptySession = false :=
  ⟨rfl, rfl⟩

/-- C3 amended: for every provider response with ChallengeName
NEW_PASSWORD_REQUIRED, the /auth/login handler returns HTTP 200 with a
challenge body whose username equals the request's username and whose session
token is exactly the provider-supplied Session — non-empty precisely when the
provider supplied a non-empty one. -/
theorem login_challenge_forwards_session (u : String)
    (r : CognitoAuthResponse)
    (h : r.challengeName = some "NEW_PASSWORD_REQUIRED") :
    AuthRouter.login_for_access_token u (.ok r)
      = .response 200 (.challenge "NEW_PASSWORD_REQUIRED" r.session u)
    ∧ ((LoginBody.challenge "NEW_PASSWORD_REQUIRED" r.session
          u).hasNonemptySession = true
        ↔ ∃ s, r.session = some s ∧ s ≠ "") := by
  constructor
  · simp [AuthRouter.login_for_access_token, h]
  · cases hs : r.session with
    | none => simp [LoginBody.hasNonemptySession]
    | some s =>
        simp only [LoginBody.hasNonemptySession, decide_eq_true_eq,
          Option.some.injEq]
        constructor
        · intro hne
          exact ⟨s, rfl, hne⟩
        · rintro ⟨t, ht, hne⟩
          exact ht ▸ hne

/-- C3 amended, witness at a concrete challenge response with a non-empty
session token. -/
theorem login_challenge_forwards_session_witness :
    (CognitoAuthResponse.mk (some "NEW_PASSWORD_REQUIRED") (some "sess-tok")
        none).challengeName = some "NEW_PASSWORD_REQUIRED"
    ∧ (AuthRouter.login_for_access_token "alice"
          (.ok ⟨some "NEW_PASSWORD_REQUIRED", some "sess-tok", none⟩)
        = .response 200
            (.challenge "NEW_PASSWORD_REQUIRED" (some "sess-tok") "alice")
      ∧ ((LoginBody.challenge "NEW_PASSWORD_REQUIRED" (some "sess-tok")
            "alice").hasNonemptySession = true
          ↔ ∃ s, (some "sess-tok" : Option String) = some s ∧ s ≠ "")) :=
  ⟨rfl, login_challenge_forwards_session "alice"
    ⟨some "NEW_PASSWORD_REQUIRED", some "sess-tok", none⟩ rfl⟩

/-- C4 counterexample: when the provider rejects the credentials with reason
NotAuthorizedException, the /auth/login handler raises HTTPException 401 whose
detail ends with that very reason string — the upstream reason is included in
the response returned to the caller, not kept for logging only. -/
theorem login_error_leaks_reason_counterexample :
    AuthRouter.login_for_access_token "alice"
        (.error (.clientError "NotAuthorizedException"))
      = .httpError 401
          ("Incorrect username or password: " ++ "NotAuthorizedException")
    ∧ ∃ p, ("Incorrect username or password: " ++ "NotAuthorizedException")
        = p ++ "NotAuthorizedException" :=
  ⟨rfl, "Incorrect username or password: ", rfl⟩

/-- C4 amended: for every /auth/login request whose credentials are rejected
upstream, the upstream reason string is embedded into the 401 response detail
returned to the caller, appended to the fixed prefix (it is also logged, which
the embedding does not model). -/
theorem login_error_detail_embeds_reason (u : String)
    (e : AdapterException) :
    AuthRouter.login_for_access_token u (.error e)
      = .httpError 401 ("Incorrect username or password: " ++ e.message) :=
  rfl

/-- C5 counterexample: on a successful authentication the legacy POST /login
route returns 200 whose body is the raw provider response; its JSON encoding
differs from the token bundle's own encoding — the bundle sits nested under
the AuthenticationResult key instead of being the body. -/
theorem legacy_login_body_wraps_bundle_counterexample :
    LoginRouter.login_for_access_token
        (.ok ⟨none, none, some ⟨"acc", "id", "ref", 3600⟩⟩)
      = .response 200 ⟨none, none, some ⟨"acc", "id", "ref", 3600⟩⟩
    ∧ (CognitoAuthResponse.mk none none
        (some ⟨"acc", "id", "ref", 3600⟩)).toJson
      ≠ (TokenBundle.mk "acc" "id" "ref" 3600).toJson :=
  ⟨rfl, by simp [CognitoAuthResponse.toJson, TokenBundle.toJson]⟩

/-- C5 amended: the legacy POST /login route returns HTTP 200 whose body is
the provider's raw authentication response — when the provider supplied a
token bundle it appears nested under the body's AuthenticationResult key —
and a 401 for every failed authentication. -/
theorem legacy_login_outcomes (r : CognitoAuthResponse)
    (e : AdapterException) (t : TokenBundle) :
    LoginRouter.login_for_access_token (.ok r) = .response 200 r
    ∧ LoginRouter.login_for_access_token (.error e)
      = .httpError 401 ("Incorrect username or password: " ++ e.message)
    ∧ (CognitoAuthResponse.mk none none (some t)).toJson
      = .obj [("AuthenticationResult", t.toJson)] :=
  ⟨rfl, rfl, rfl⟩

/-- C6: every successful /auth/login attempt produces a 200 body that is
exactly one of the two AuthenticationResult shapes — a challenge body exactly
when the provider response carries ChallengeName NEW_PASSWORD_REQUIRED, and
otherwise the response's AuthenticationResult — and never both. -/
theorem login_success_body_exclusive (u : String)
    (r : CognitoAuthResponse) :
    ∃ body : LoginBody,
      AuthRouter.login_for_access_token u (.ok r) = .response 200 body
      ∧ ((∃ c s, body = .challenge c s u)
          ↔ r.challengeName = some "NEW_PASSWORD_REQUIRED")
      ∧ ((∃ tb, body = .bundle tb)
          ↔ ¬ r.challengeName = some "NEW_PASSWORD_REQUIRED")
      ∧ ¬ ((∃ c s, body = .challenge c s u) ∧ (∃ tb, body = .bundle tb)) := by
  by_cases h : r.challengeName = some "NEW_PASSWORD_REQUIRED"
  · refine ⟨.challenge "NEW_PASSWORD_REQUIRED" r.session u, ?_, ?_, ?_, ?_⟩
    · simp [AuthRouter.login_for_access_token, h]
    · simp [h]
    · simp [h]
    · simp
  · refine ⟨.bundle r.authenticationResult, ?_, ?_, ?_, ?_⟩
    · simp [AuthRouter.login_for_access_token, h]
    · simp [h]
    · simp [h]
    · simp

/-- C2 counterexample: the respond-to-challenge handler catches only
ClientError, so a concrete adapter exception outside that hierarchy
propagates uncaught out of the handler; moreover the /auth/login handler maps
a non-taxonomy adapter exception to 401 with the exception detail embedded,
not to a 500 with a generic message. -/
theorem handler_exception_policy_counterexample :
    (AuthRouter.respond_to_challenge ⟨"alice", "sess-tok", "NewPass1"⟩
        (.error (.other "ParamValidationError"))).2
      = .uncaught (.other "ParamValidationError")
    ∧ AuthRouter.login_for_access_token "alice" (.error (.other "boom"))
      = .httpError 401 ("Incorrect username or password: " ++ "boom") :=
  ⟨rfl, rfl⟩

/-- C2 amended: the signup, delete-user and list-users handlers catch broadly
and translate any adapter exception outside their taxonomy cases into a 500
with a fixed generic detail; the two login handlers catch broadly but
translate every adapter exception into a 401 with the exception's detail
embedded; the respond-to-challenge handler translates only ClientErrors (to a
400 carrying the upstream detail) and lets every other adapter exception
propagate uncaught. -/
theorem handler_exception_translation (e : AdapterException) (u : String)
    (req : AuthRouter.RespondToChallengeRequest) :
    AuthRouter.login_for_access_token u (.error e)
      = .httpError 401 ("Incorrect username or password: " ++ e.message)
    ∧ LoginRouter.login_for_access_token (.error e)
      = .httpError 401 ("Incorrect username or password: " ++ e.message)
    ∧ (AuthRouter.respond_to_challenge req (.error e)).2
      = (if e.isClientError then .httpError 400 e.message else .uncaught e)
    ∧ AuthRouter.signup_dispatch e
      = (if e.isUsernameExists then
          .httpError 409 "A user with this username already exists."
         else
          .httpError 500
            "An unexpected error occurred while creating the user.")
    ∧ AuthRouter.admin_delete_user (.error e)
      = (if e.isUserNotFound then .httpError 404 "User not found."
         else
          .httpError 500
            "An unexpected error occurred while deleting the user.")
    ∧ AuthRouter.admin_list_users (.error e)
      = .httpError 500 "An unexpected error occurred while listing users." := by
  cases e with
  | usernameExists m => exact ⟨rfl, rfl, rfl, rfl, rfl, rfl⟩
  | userNotFound m => exact ⟨rfl, rfl, rfl, rfl, rfl, rfl⟩
  | clientError m => exact ⟨rfl, rfl, rfl, rfl, rfl, rfl⟩
  | other m => exact ⟨rfl, rfl, rfl, rfl, rfl, rfl⟩

/-- C8: against the spec-modelled provider, a signup for a username absent
from the pool returns 201 and a second signup for the same username, run on
the provider state the first one produced, returns 409; moreover, for any
provider state, signup returns 409 exactly when the username already exists
there (the provider's duplicate-user report). -/
theorem signup_twice_same_username (req : AuthRouter.SignUpRequest)
    (st st3 : ProviderState) (now now2 n3 : String)
    (h : req.username ∉ st.users) :
    (signup_flow req st now (.ok ())).1.toStatus = some 201
    ∧ (signup_flow req (signup_flow req st now (.ok ())).2 now2
        (.ok ())).1.toStatus = some 409
    ∧ ((signup_flow req st3 n3 (.ok ())).1.toStatus = some 409
        ↔ req.username ∈ st3.users) := by
  refine ⟨?_, ?_, ?_⟩
  · simp [signup_flow, provider_admin_create_user, h,
      AuthRouter.admin_create_user, HandlerOutcome.toStatus]
  · simp [signup_flow, provider_admin_create_user, h,
      AuthRouter.admin_create_user, AuthRouter.signup_dispatch,
      HandlerOutcome.toStatus]
  · by_cases h3 : req.username ∈ st3.users
    · simp [signup_flow, provider_admin_create_user, h3,
        AuthRouter.admin_create_user, AuthRouter.signup_dispatch,
        HandlerOutcome.toStatus]
    · simp [signup_flow, provider_admin_create_user, h3,
        AuthRouter.admin_create_user, HandlerOutcome.toStatus]

/-- C8, witness: an empty pool, a concrete signup request, and the duplicate
check evaluated on a concrete one-user pool. -/
theorem signup_twice_same_username_witness :
    ("alice" : String) ∉ (ProviderState.mk []).users
    ∧ ((signup_flow ⟨"alice", "alice@mail", "Temp1", "users"⟩ ⟨[]⟩ "d1"
          (.ok ())).1.toStatus = some 201
      ∧ (signup_flow ⟨"alice", "alice@mail", "Temp1", "users"⟩
          (signup_flow ⟨"alice", "alice@mail", "Temp1", "users"⟩ ⟨[]⟩ "d1"
            (.ok ())).2 "d2" (.ok ())).1.toStatus = some 409
      ∧ ((signup_flow ⟨"alice", "alice@mail", "Temp1", "users"⟩ ⟨["bob"]⟩ "d3"
            (.ok ())).1.toStatus = some 409
          ↔ ("alice" : String) ∈ (ProviderState.mk ["bob"]).users)) :=
  ⟨by decide,
   signup_twice_same_username ⟨"alice", "alice@mail", "Temp1", "users"⟩ ⟨[]⟩
     ⟨["bob"]⟩ "d1" "d2" "d3" (by decide)⟩

/-- C9: the signup handler is not atomic on error — there is an execution in
which the provider's user creation succeeds, the subsequent group attachment
raises, and the handler returns 500 while the created user remains in the
provider state. -/
theorem signup_not_atomic_on_group_error :
    ∃ (req : AuthRouter.SignUpRequest) (st : ProviderState) (now msg : String),
      req.username ∉ st.users
      ∧ (signup_flow req st now (.error (.other msg))).1.toStatus = some 500
      ∧ req.username ∈ (signup_flow req st now (.error (.other msg))).2.users :=
  ⟨⟨"alice", "alice@mail", "Temp1", "users"⟩, ⟨[]⟩, "d1", "boom",
   by decide, rfl, by decide⟩

/-- C10: when the provider response to /auth/login carries a ChallengeName
different from NEW_PASSWORD_REQUIRED, the handler does not return a challenge
body: it falls through to the success branch and returns 200 whose body is
the response's AuthenticationResult (null when the provider supplied no
token bundle). -/
theorem login_other_challenge_falls_through (u c : String)
    (r : CognitoAuthResponse) (h1 : r.challengeName = some c)
    (h2 : c ≠ "NEW_PASSWORD_REQUIRED") :
    AuthRouter.login_for_access_token u (.ok r)
      = .response 200 (.bundle r.authenticationResult) := by
  have hne : ¬ r.challengeName = some "NEW_PASSWORD_REQUIRED" := by
    rw [h1]
    intro hc
    exact h2 (Option.some.injEq _ _ ▸ hc)
  simp [AuthRouter.login_for_access_token, hne]

/-- C10, witness at a concrete SMS_MFA challenge response without a token
bundle: the body is the null AuthenticationResult. -/
theorem login_other_challenge_falls_through_witness :
    (CognitoAuthResponse.mk (some "SMS_MFA") (some "sess-tok")
        none).challengeName = some "SMS_MFA"
    ∧ ("SMS_MFA" : String) ≠ "NEW_PASSWORD_REQUIRED"
    ∧ AuthRouter.login_for_access_token "alice"
        (.ok ⟨some "SMS_MFA", some "sess-tok", none⟩)
      = .response 200 (.bundle none) :=
  ⟨rfl, by decide,
   login_other_challenge_falls_through "alice" "SMS_MFA"
     ⟨some "SMS_MFA", some "sess-tok", none⟩ rfl (by decide)⟩

end ArcaneScribe
